import Mathlib

/-!
Verification development for the two-tier block-structure cache:
`openedx/core/lib/block_structure/cache.py` (class `BlockStructureCache`)
and `openedx/core/djangoapps/content/block_structure/models.py` (model
`BlockStructure`).  Pure Python functions become Lean functions; the
Django cache, the model table and the feature flag become an explicit
`SysState` threaded through every operation; a raised Python exception
becomes the `exn` constructor of `PyResult`, carrying the state at the
moment of the raise (writes performed before the raise persist).
-/

/-- A serialized byte payload (Python `bytes`), one `Nat` per byte. -/
abbrev Payload := List Nat

/-- The Python exceptions that the embedded methods can raise. -/
inductive PyError where
  | blockStructureNotFound (key : String)
  | corruptPayload
  | attributeError (name : String)
  | typeError (message : String)
  | valueError (message : String)
  | assertionError
deriving DecidableEq

/-- The relations table of a block structure: each block maps to its
ordered list of child blocks (`_block_relations`). -/
abbrev BlockRelations := List (String × List String)

/-- The transformer-data table: entries of block key, transformer name,
and the opaque annotation payload (`transformer_data`). -/
abbrev TransformerData := List (String × String × String)

/-- The block-data table: each block maps to its opaque per-block
attributes (`_block_data_map`). -/
abbrev BlockDataMap := List (String × String)

/-- Modelled from the spec: the in-memory block structure
(`BlockStructureBlockData`, from `block_structure.py`, which is not under
src/): a root identifier plus the relations, transformer-data and
block-data tables.  Identifiers and opaque payloads are their stable
string renderings. -/
structure BlockStructureBlockData where
  root_block_usage_key : String
  block_relations : BlockRelations
  transformer_data : TransformerData
  block_data_map : BlockDataMap
deriving DecidableEq

/-- Modelled from the spec: `BlockStructureBlockData.VERSION`, the fixed
internal schema-version constant used by the non-storage-backed cache key
(the defining module `block_structure.py` is not under src/). -/
def BlockStructureBlockData.VERSION : Nat := 2

/-- A row of the Django model `models.BlockStructure`: one row per data
usage key, the four further version fields, and the `data` FileField.
Each version field holds the unicode rendering of the stored value; the
FileField holds the stored blob when one has been written. -/
structure models.BlockStructure where
  data_usage_key : String
  data_version : String
  data_edit_timestamp : String
  transformers_schema_version : String
  block_structure_schema_version : String
  dataFile : Option Payload
deriving DecidableEq

/-- An entry of the Django fast cache: key, stored payload, and the
timeout (in seconds) passed at write time. -/
structure CacheEntry where
  key : String
  value : Payload
  timeout : Nat
deriving DecidableEq

/-- The state visible to the cache subsystem: the value of the
`STORAGE_BACKING_FOR_CACHE` feature flag (`config.is_enabled`, checked on
every operation), the fast-tier cache entries, and the durable
`BlockStructure` table rows. -/
structure SysState where
  storage_backing_enabled : Bool
  cache : List CacheEntry
  store : List models.BlockStructure
deriving DecidableEq

/-- Django `cache.get`: the stored payload for the key, `none` on a miss. -/
def cacheGet (key : String) (entries : List CacheEntry) : Option Payload :=
  (entries.find? (fun e => e.key == key)).map (fun e => e.value)

/-- Django `cache.set`: overwrite the entry for the key. -/
def cacheSet (key : String) (value : Payload) (timeout : Nat)
    (entries : List CacheEntry) : List CacheEntry :=
  ⟨key, value, timeout⟩ :: entries.filter (fun e => e.key != key)

/-- Outcome of an embedded method call: a normal return or a raised
exception, together with the system state after the call (state changes
made before a raise persist). -/
inductive PyResult (α : Type) where
  | ok (value : α) (st : SysState)
  | exn (error : PyError) (st : SysState)
deriving DecidableEq

/-- The system state carried by a `PyResult`. -/
def PyResult.state {α : Type} : PyResult α → SysState
  | .ok _ st => st
  | .exn _ st => st

/-- Whether a `PyResult` is a normal return. -/
def PyResult.isOk {α : Type} : PyResult α → Bool
  | .ok _ _ => true
  | .exn _ _ => false

/-- Length-prefixed encoding of a string: character count, then the code
point of each character. -/
def encStr (s : String) : Payload :=
  s.data.length :: s.data.map Char.toNat

/-- Length-prefixed encoding of a list, given an encoding for elements. -/
def encListP {α : Type} (enc : α → Payload) (l : List α) : Payload :=
  l.length :: (l.map enc).flatten

/-- Modelled from the spec: `zpickle` (from `openedx.core.lib.cache_utils`,
not under src/) — the compressed pickled serialization of the three tables
combined into one payload.  Modelled as an injective length-prefixed byte
encoding of the triple. -/
def zpickle (t : BlockRelations × TransformerData × BlockDataMap) : Payload :=
  encListP (fun p => encStr p.1 ++ encListP encStr p.2) t.1 ++
  encListP (fun x => encStr x.1 ++ encStr x.2.1 ++ encStr x.2.2) t.2.1 ++
  encListP (fun p => encStr p.1 ++ encStr p.2) t.2.2

/-- Decode one length-prefixed string from a payload. -/
def decStr : Payload → Option (String × Payload)
  | [] => none
  | n :: rest =>
    if n ≤ rest.length then
      some (String.mk ((rest.take n).map Char.ofNat), rest.drop n)
    else none

/-- Decode a known number of elements with the given element decoder. -/
def decMany {α : Type} (dec : Payload → Option (α × Payload)) :
    Nat → Payload → Option (List α × Payload)
  | 0, bytes => some ([], bytes)
  | n + 1, bytes =>
    match dec bytes with
    | none => none
    | some (a, r) =>
      match decMany dec n r with
      | none => none
      | some (as, r2) => some (a :: as, r2)

/-- Decode one length-prefixed list with the given element decoder. -/
def decListP {α : Type} (dec : Payload → Option (α × Payload)) :
    Payload → Option (List α × Payload)
  | [] => none
  | n :: rest => decMany dec n rest

/-- Decode one relations-table entry. -/
def decRelEntry (bytes : Payload) : Option ((String × List String) × Payload) :=
  match decStr bytes with
  | none => none
  | some (k, r) =>
    match decListP decStr r with
    | none => none
    | some (children, r2) => some ((k, children), r2)

/-- Decode one transformer-data entry. -/
def decTransformerEntry (bytes : Payload) :
    Option ((String × String × String) × Payload) :=
  match decStr bytes with
  | none => none
  | some (k, r) =>
    match decStr r with
    | none => none
    | some (t, r2) =>
      match decStr r2 with
      | none => none
      | some (v, r3) => some ((k, t, v), r3)

/-- Decode one block-data entry. -/
def decBlockDataEntry (bytes : Payload) : Option ((String × String) × Payload) :=
  match decStr bytes with
  | none => none
  | some (k, r) =>
    match decStr r with
    | none => none
    | some (v, r2) => some ((k, v), r2)

/-- Modelled from the spec: `zunpickle` (from
`openedx.core.lib.cache_utils`, not under src/) — decodes a payload back
into the triple of tables, failing with a corrupt-payload error on
malformed bytes. -/
def zunpickle (p : Payload) :
    Except PyError (BlockRelations × TransformerData × BlockDataMap) :=
  match decListP decRelEntry p with
  | none => .error .corruptPayload
  | some (rels, r1) =>
    match decListP decTransformerEntry r1 with
    | none => .error .corruptPayload
    | some (td, r2) =>
      match decListP decBlockDataEntry r2 with
      | none => .error .corruptPayload
      | some (bd, r3) =>
        if r3 = [] then .ok (rels, td, bd) else .error .corruptPayload

/-- Modelled from the spec: `BlockStructureFactory.create_new`
(`factory.py`, not under src/) — reconstructs the in-memory structure
anchored at the given root from the three decoded tables. -/
def BlockStructureFactory.create_new (root : String) (rels : BlockRelations)
    (td : TransformerData) (bd : BlockDataMap) : BlockStructureBlockData :=
  ⟨root, rels, td, bd⟩

/-- `models.BlockStructure.get_serialized_data`: `self.data.read()` on the
FileField; `none` when no file was ever written to the field. -/
def models.BlockStructure.get_serialized_data (r : models.BlockStructure) :
    Option Payload :=
  r.dataFile

/-- `models.BlockStructure.get_current`: the row whose `data_usage_key`
equals the given key; raises `BlockStructureNotFound` when absent. -/
def models.BlockStructure.get_current (data_usage_key : String)
    (rows : List models.BlockStructure) : Except PyError models.BlockStructure :=
  match rows.find? (fun r => r.data_usage_key == data_usage_key) with
  | some r => .ok r
  | none => .error (.blockStructureNotFound data_usage_key)

/-- Django `objects.update_or_create(**kwargs)` as invoked by
`update_or_create_with_data`: every keyword receives the same value, so
the lookup matches a row whose five version fields all equal that value;
otherwise a fresh row with those field values is created.  A freshly
created row has no file in its `data` FileField, because nothing ever
assigns it. -/
def models.objectsUpdateOrCreate (v : String)
    (rows : List models.BlockStructure) : List models.BlockStructure :=
  if rows.any (fun r =>
      r.data_usage_key == v && r.data_version == v &&
      r.data_edit_timestamp == v && r.transformers_schema_version == v &&
      r.block_structure_schema_version == v) then
    rows
  else
    rows ++ [⟨v, v, v, v, v, none⟩]

/-- `models.BlockStructure.update_or_create_with_data`: its body is the
single statement `cls.objects.update_or_create(**kwargs)`.  There is no
return statement, so the caller receives `None`; the `serialized_data`
argument is never used, so the blob is never persisted. -/
def models.BlockStructure.update_or_create_with_data (serialized_data : Payload)
    (kwargsValue : String) (rows : List models.BlockStructure) :
    List models.BlockStructure × Option models.BlockStructure :=
  (models.objectsUpdateOrCreate kwargsValue rows, none)

/-- `models.BlockStructure.delete`: overridden with an empty body (a bare
`pass`), so it performs no state change at all. -/
def models.BlockStructure.delete (r : models.BlockStructure)
    (st : SysState) : SysState :=
  st

namespace BlockStructureCache

/-- `BlockStructureCache._serialize`: zpickle of the triple of the
relations, transformer-data and block-data tables. -/
def _serialize (bs : BlockStructureBlockData) : Payload :=
  zpickle (bs.block_relations, bs.transformer_data, bs.block_data_map)

/-- `BlockStructureCache._deserialize`: zunpickle the payload and rebuild
the structure anchored at the root via the factory. -/
def _deserialize (serialized_data : Payload) (root_block_usage_key : String) :
    Except PyError BlockStructureBlockData :=
  (zunpickle serialized_data).map
    (fun t => BlockStructureFactory.create_new root_block_usage_key t.1 t.2.1 t.2.2)

/-- Python `u-colon-join` over a list of strings, as used by the key
encoder. -/
def joinColon : List String → String
  | [] => ""
  | [x] => x
  | x :: y :: xs => x ++ ":" ++ joinColon (y :: xs)

/-- The field list iterated by `_encode_root_cache_key`: each field name
paired with its `getattr` access on the model row (the source renders the
attribute with `unicode`; row fields already hold the renderings). -/
def cacheKeyFields : List (String × (models.BlockStructure → String)) :=
  [( "data_usage_key", fun m => m.data_usage_key),
   ( "data_version", fun m => m.data_version),
   ( "data_edit_timestamp", fun m => m.data_edit_timestamp),
   ( "transformers_schema_version", fun m => m.transformers_schema_version),
   ( "block_structure_schema_version", fun m => m.block_structure_schema_version)]

/-- `BlockStructureCache._encode_root_cache_key`: with storage backing
enabled it asserts that a model row is present and joins the five
`field_name@value` renderings with colons; otherwise it derives the
static versioned key from `BlockStructureBlockData.VERSION` and the root
usage key. -/
def _encode_root_cache_key (storage_backing_enabled : Bool)
    (root_block_usage_key : String) (bs_model : Option models.BlockStructure) :
    Except PyError String :=
  if storage_backing_enabled then
    match bs_model with
    | none => .error .assertionError
    | some m =>
      .ok (joinColon (cacheKeyFields.map (fun f => f.1 ++ "@" ++ f.2 m)))
  else
    .ok ( "v" ++ toString BlockStructureBlockData.VERSION ++ ".root.key." ++
      root_block_usage_key)

/-- `BlockStructureCache._get_model`: resolve the current model row via
`models.BlockStructure.get_current` when storage backing is enabled,
`None` otherwise. -/
def _get_model (root_block_usage_key : String) (st : SysState) :
    Except PyError (Option models.BlockStructure) :=
  if st.storage_backing_enabled then
    (models.BlockStructure.get_current root_block_usage_key st.store).map some
  else
    .ok none

/-- The rendering of the in-memory block structure object itself.  The
source passes the whole `block_structure` object as the value of every
keyword of `update_or_create_with_data`; only its identity matters
downstream, so the rendering is kept opaque. -/
def objectRender (bs : BlockStructureBlockData) : String :=
  "BlockStructureBlockData object " ++ bs.root_block_usage_key

/-- `BlockStructureCache._create_or_update_model`: with storage backing
enabled, call `update_or_create_with_data` (passing the block structure
object as every keyword value) and return its result, which is `None`;
otherwise return `None` without touching the store. -/
def _create_or_update_model (bs : BlockStructureBlockData)
    (serialized_data : Payload) (st : SysState) :
    SysState × Option models.BlockStructure :=
  if st.storage_backing_enabled then
    let r := models.BlockStructure.update_or_create_with_data serialized_data
      (objectRender bs) st.store
    ({ st with store := r.1 }, r.2)
  else
    (st, none)

/-- `BlockStructureCache._add_to_cache`: encode the root cache key (in
storage-backed mode this asserts the model row is present) and write the
payload to the fast tier with the one-day fail-safe timeout. -/
def _add_to_cache (bs : BlockStructureBlockData) (serialized_data : Payload)
    (bs_model : Option models.BlockStructure) (st : SysState) : PyResult Unit :=
  match _encode_root_cache_key st.storage_backing_enabled
      bs.root_block_usage_key bs_model with
  | .error e => .exn e st
  | .ok cache_key =>
    .ok () { st with cache := cacheSet cache_key serialized_data 86400 st.cache }

/-- `BlockStructureCache.add`: serialize, create or update the model row,
then write the fast tier. -/
def add (bs : BlockStructureBlockData) (st : SysState) : PyResult Unit :=
  let serialized_data := _serialize bs
  let r := _create_or_update_model bs serialized_data st
  _add_to_cache bs serialized_data r.2 r.1

/-- `BlockStructureCache._get_from_cache`: encode the key, probe the fast
tier, and treat any falsy payload (a miss, which Django reports as `None`,
or empty bytes) as `BlockStructureNotFound`. -/
def _get_from_cache (root_block_usage_key : String)
    (bs_model : Option models.BlockStructure) (st : SysState) : PyResult Payload :=
  match _encode_root_cache_key st.storage_backing_enabled
      root_block_usage_key bs_model with
  | .error e => .exn e st
  | .ok cache_key =>
    match cacheGet cache_key st.cache with
    | none => .exn (.blockStructureNotFound root_block_usage_key) st
    | some serialized_data =>
      if serialized_data = [] then
        .exn (.blockStructureNotFound root_block_usage_key) st
      else
        .ok serialized_data st

/-- `BlockStructureCache._get_from_store`: raise `BlockStructureNotFound`
unless storage backing is enabled; otherwise read the blob of the resolved
model row (`get_serialized_data`), which fails when the FileField was
never assigned a file. -/
def _get_from_store (root_block_usage_key : String)
    (bs_model : Option models.BlockStructure) (st : SysState) : PyResult Payload :=
  if st.storage_backing_enabled then
    match bs_model with
    | none => .exn (.attributeError "get_serialized_data") st
    | some m =>
      match m.get_serialized_data with
      | some p => .ok p st
      | none => .exn (.valueError "the data attribute has no file associated with it") st
  else
    .exn (.blockStructureNotFound root_block_usage_key) st

/-- `BlockStructureCache.get`.  Its first statement evaluates
`self._get_current_model(root_block_usage_key)`; the class defines
`_get_model` but no attribute named `_get_current_model`, and it inherits
only from `object`, so Python attribute lookup raises `AttributeError`
before any tier is consulted.  The rest of the body is unreachable and is
embedded separately as `getBody`. -/
def get (root_block_usage_key : String) (st : SysState) :
    PyResult BlockStructureBlockData :=
  .exn (.attributeError "_get_current_model") st

/-- The remainder of the body of `get` (the try/except over the fast-tier
probe with storage fallback, followed by `_deserialize`), as it would run
with a resolved model row.  The except clause catches exactly
`BlockStructureNotFound`. -/
def getBody (root_block_usage_key : String)
    (bs_model : Option models.BlockStructure) (st : SysState) :
    PyResult BlockStructureBlockData :=
  let fromTiers :=
    match _get_from_cache root_block_usage_key bs_model st with
    | .exn (.blockStructureNotFound _) st1 =>
      _get_from_store root_block_usage_key bs_model st1
    | r => r
  match fromTiers with
  | .ok p st2 =>
    match _deserialize p root_block_usage_key with
    | .ok bs => .ok bs st2
    | .error e => .exn e st2
  | .exn e st2 => .exn e st2

/-- The TypeError message raised by `delete`. -/
def deleteTypeErrorMessage : String :=
  "_encode_root_cache_key missing 1 required positional argument bs_model"

/-- `BlockStructureCache.delete`: its single statement evaluates
`self._encode_root_cache_key(root_block_usage_key)`; that classmethod
requires a second positional argument `bs_model` with no default, so the
call raises `TypeError` while evaluating the argument of `cache.delete`,
and neither tier is modified. -/
def delete (root_block_usage_key : String) (st : SysState) : PyResult Unit :=
  .exn (.typeError deleteTypeErrorMessage) st

end BlockStructureCache

/-- The storage-backed cache key written out flat, for reasoning about the
key encoder. -/
def storageKeyExpr (u v t s w : String) : String :=
  "data_usage_key@" ++ u ++ ":data_version@" ++ v ++ ":data_edit_timestamp@" ++ t ++
    ":transformers_schema_version@" ++ s ++ ":block_structure_schema_version@" ++ w

/-- Two model rows differ in exactly one of the five version fields used by
the storage-backed cache key (the `data` FileField is not part of the key). -/
def differInExactlyOneField (m1 m2 : models.BlockStructure) : Prop :=
  (m1.data_usage_key ≠ m2.data_usage_key ∧ m1.data_version = m2.data_version ∧
    m1.data_edit_timestamp = m2.data_edit_timestamp ∧
    m1.transformers_schema_version = m2.transformers_schema_version ∧
    m1.block_structure_schema_version = m2.block_structure_schema_version) ∨
  (m1.data_usage_key = m2.data_usage_key ∧ m1.data_version ≠ m2.data_version ∧
    m1.data_edit_timestamp = m2.data_edit_timestamp ∧
    m1.transformers_schema_version = m2.transformers_schema_version ∧
    m1.block_structure_schema_version = m2.block_structure_schema_version) ∨
  (m1.data_usage_key = m2.data_usage_key ∧ m1.data_version = m2.data_version ∧
    m1.data_edit_timestamp ≠ m2.data_edit_timestamp ∧
    m1.transformers_schema_version = m2.transformers_schema_version ∧
    m1.block_structure_schema_version = m2.block_structure_schema_version) ∨
  (m1.data_usage_key = m2.data_usage_key ∧ m1.data_version = m2.data_version ∧
    m1.data_edit_timestamp = m2.data_edit_timestamp ∧
    m1.transformers_schema_version ≠ m2.transformers_schema_version ∧
    m1.block_structure_schema_version = m2.block_structure_schema_version) ∨
  (m1.data_usage_key = m2.data_usage_key ∧ m1.data_version = m2.data_version ∧
    m1.data_edit_timestamp = m2.data_edit_timestamp ∧
    m1.transformers_schema_version = m2.transformers_schema_version ∧
    m1.block_structure_schema_version ≠ m2.block_structure_schema_version)

instance (m1 m2 : models.BlockStructure) : Decidable (differInExactlyOneField m1 m2) := by
  unfold differInExactlyOneField
  infer_instance

lemma sfold (a b c x : String) (h : a ++ b = c) : a ++ (b ++ x) = c ++ x := by
  rw [← String.append_assoc, h]

lemma scancel_left (p a b : String) (h : p ++ a = p ++ b) : a = b := by
  have hd := congrArg String.data h
  simp only [String.data_append] at hd
  exact String.ext (List.append_cancel_left hd)

lemma scancel_right (s a b : String) (h : a ++ s = b ++ s) : a = b := by
  have hd := congrArg String.data h
  simp only [String.data_append] at hd
  exact String.ext (List.append_cancel_right hd)

lemma fold_data_usage_key (x : String) :
    "data_usage_key" ++ ( "@" ++ x) = "data_usage_key@" ++ x :=
  sfold _ _ _ x rfl

lemma fold_data_version (x : String) :
    "data_version" ++ ( "@" ++ x) = "data_version@" ++ x :=
  sfold _ _ _ x rfl

lemma fold_data_edit_timestamp (x : String) :
    "data_edit_timestamp" ++ ( "@" ++ x) = "data_edit_timestamp@" ++ x :=
  sfold _ _ _ x rfl

lemma fold_transformers_schema_version (x : String) :
    "transformers_schema_version" ++ ( "@" ++ x) = "transformers_schema_version@" ++ x :=
  sfold _ _ _ x rfl

lemma fold_block_structure_schema_version (x : String) :
    "block_structure_schema_version" ++ ( "@" ++ x) = "block_structure_schema_version@" ++ x :=
  sfold _ _ _ x rfl

lemma fold_colon_data_version (x : String) :
    ":" ++ ( "data_version@" ++ x) = ":data_version@" ++ x :=
  sfold _ _ _ x rfl

lemma fold_colon_data_edit_timestamp (x : String) :
    ":" ++ ( "data_edit_timestamp@" ++ x) = ":data_edit_timestamp@" ++ x :=
  sfold _ _ _ x rfl

lemma fold_colon_transformers_schema_version (x : String) :
    ":" ++ ( "transformers_schema_version@" ++ x) = ":transformers_schema_version@" ++ x :=
  sfold _ _ _ x rfl

lemma fold_colon_block_structure_schema_version (x : String) :
    ":" ++ ( "block_structure_schema_version@" ++ x) = ":block_structure_schema_version@" ++ x :=
  sfold _ _ _ x rfl

lemma encode_storage_eq (root : String) (m : models.BlockStructure) :
    BlockStructureCache._encode_root_cache_key true root (some m) =
      .ok (storageKeyExpr m.data_usage_key m.data_version m.data_edit_timestamp
        m.transformers_schema_version m.block_structure_schema_version) := by
  have hjoin : BlockStructureCache.joinColon
      (BlockStructureCache.cacheKeyFields.map (fun f => f.1 ++ "@" ++ f.2 m)) =
      storageKeyExpr m.data_usage_key m.data_version m.data_edit_timestamp
        m.transformers_schema_version m.block_structure_schema_version := by
    simp only [BlockStructureCache.cacheKeyFields, List.map_cons, List.map_nil,
      BlockStructureCache.joinColon, storageKeyExpr, String.append_assoc,
      fold_data_usage_key, fold_data_version, fold_data_edit_timestamp,
      fold_transformers_schema_version, fold_block_structure_schema_version,
      fold_colon_data_version, fold_colon_data_edit_timestamp,
      fold_colon_transformers_schema_version, fold_colon_block_structure_schema_version]
  show Except.ok (BlockStructureCache.joinColon
    (BlockStructureCache.cacheKeyFields.map (fun f => f.1 ++ "@" ++ f.2 m))) = _
  rw [hjoin]

lemma storageKeyExpr_inj_data_usage_key (u1 u2 v t s w : String)
    (h : storageKeyExpr u1 v t s w = storageKeyExpr u2 v t s w) : u1 = u2 := by
  simp only [storageKeyExpr, String.append_assoc] at h
  replace h := scancel_left _ _ _ h
  exact scancel_right _ _ _ h

lemma storageKeyExpr_inj_data_version (u v1 v2 t s w : String)
    (h : storageKeyExpr u v1 t s w = storageKeyExpr u v2 t s w) : v1 = v2 := by
  simp only [storageKeyExpr, String.append_assoc] at h
  replace h := scancel_left _ _ _ h
  replace h := scancel_left _ _ _ h
  replace h := scancel_left _ _ _ h
  exact scancel_right _ _ _ h

lemma storageKeyExpr_inj_data_edit_timestamp (u v t1 t2 s w : String)
    (h : storageKeyExpr u v t1 s w = storageKeyExpr u v t2 s w) : t1 = t2 := by
  simp only [storageKeyExpr, String.append_assoc] at h
  replace h := scancel_left _ _ _ h
  replace h := scancel_left _ _ _ h
  replace h := scancel_left _ _ _ h
  replace h := scancel_left _ _ _ h
  replace h := scancel_left _ _ _ h
  exact scancel_right _ _ _ h

lemma storageKeyExpr_inj_transformers_schema_version (u v t s1 s2 w : String)
    (h : storageKeyExpr u v t s1 w = storageKeyExpr u v t s2 w) : s1 = s2 := by
  simp only [storageKeyExpr, String.append_assoc] at h
  replace h := scancel_left _ _ _ h
  replace h := scancel_left _ _ _ h
  replace h := scancel_left _ _ _ h
  replace h := scancel_left _ _ _ h
  replace h := scancel_left _ _ _ h
  replace h := scancel_left _ _ _ h
  replace h := scancel_left _ _ _ h
  exact scancel_right _ _ _ h

lemma storageKeyExpr_inj_block_structure_schema_version (u v t s w1 w2 : String)
    (h : storageKeyExpr u v t s w1 = storageKeyExpr u v t s w2) : w1 = w2 := by
  simp only [storageKeyExpr, String.append_assoc] at h
  replace h := scancel_left _ _ _ h
  replace h := scancel_left _ _ _ h
  replace h := scancel_left _ _ _ h
  replace h := scancel_left _ _ _ h
  replace h := scancel_left _ _ _ h
  replace h := scancel_left _ _ _ h
  replace h := scancel_left _ _ _ h
  replace h := scancel_left _ _ _ h
  exact scancel_left _ _ _ h

lemma staticKey_inj (r1 r2 : String)
    (h : ( "v" ++ toString BlockStructureBlockData.VERSION ++ ".root.key." ++ r1 : String) =
      "v" ++ toString BlockStructureBlockData.VERSION ++ ".root.key." ++ r2) : r1 = r2 := by
  simp only [String.append_assoc] at h
  replace h := scancel_left _ _ _ h
  replace h := scancel_left _ _ _ h
  exact scancel_left _ _ _ h

/-- C5: In storage-backed mode, for every root identifier and durable
record, the encoded cache key is exactly the five fields data_usage_key,
data_version, data_edit_timestamp, transformers_schema_version,
block_structure_schema_version, in that fixed order, each rendered as
field_name@value and joined by the colon delimiter. -/
theorem storage_backed_key_format (root : String) (m : models.BlockStructure) :
    BlockStructureCache._encode_root_cache_key true root (some m) =
      .ok ( "data_usage_key@" ++ m.data_usage_key ++
        ":data_version@" ++ m.data_version ++
        ":data_edit_timestamp@" ++ m.data_edit_timestamp ++
        ":transformers_schema_version@" ++ m.transformers_schema_version ++
        ":block_structure_schema_version@" ++ m.block_structure_schema_version) := by
  rw [encode_storage_eq]
  rfl

/-- C6: When storage backing is disabled, for every root identifier (and
whatever model argument is passed), the encoded cache key is exactly the
string v SCHEMA_VERSION .root.key. root_id, a function of the fixed
schema-version constant and the root identifier only. -/
theorem non_storage_key_format (root : String)
    (bs_model : Option models.BlockStructure) :
    BlockStructureCache._encode_root_cache_key false root bs_model =
      .ok ( "v" ++ toString BlockStructureBlockData.VERSION ++ ".root.key." ++ root) :=
  rfl

/-- C7: Durable records that differ in exactly one of the five version
fields produce different storage-backed keys, and distinct root
identifiers produce different keys in non-storage-backed mode (changing
only the root identifier in storage-backed mode is the data_usage_key case
of the first part). -/
theorem cache_key_version_sensitivity (m1 m2 : models.BlockStructure)
    (r1 r2 root : String) (bs_model : Option models.BlockStructure)
    (hm : differInExactlyOneField m1 m2) (hr : r1 ≠ r2) :
    BlockStructureCache._encode_root_cache_key true root (some m1) ≠
      BlockStructureCache._encode_root_cache_key true root (some m2) ∧
    BlockStructureCache._encode_root_cache_key false r1 bs_model ≠
      BlockStructureCache._encode_root_cache_key false r2 bs_model := by
  constructor
  · intro h
    rw [encode_storage_eq, encode_storage_eq] at h
    replace h := Except.ok.inj h
    rcases hm with ⟨hne, h2, h3, h4, h5⟩ | ⟨h1, hne, h3, h4, h5⟩ |
      ⟨h1, h2, hne, h4, h5⟩ | ⟨h1, h2, h3, hne, h5⟩ | ⟨h1, h2, h3, h4, hne⟩
    · rw [h2, h3, h4, h5] at h
      exact hne (storageKeyExpr_inj_data_usage_key _ _ _ _ _ _ h)
    · rw [h1, h3, h4, h5] at h
      exact hne (storageKeyExpr_inj_data_version _ _ _ _ _ _ h)
    · rw [h1, h2, h4, h5] at h
      exact hne (storageKeyExpr_inj_data_edit_timestamp _ _ _ _ _ _ h)
    · rw [h1, h2, h3, h5] at h
      exact hne (storageKeyExpr_inj_transformers_schema_version _ _ _ _ _ _ h)
    · rw [h1, h2, h3, h4] at h
      exact hne (storageKeyExpr_inj_block_structure_schema_version _ _ _ _ _ _ h)
  · intro h
    rw [non_storage_key_format, non_storage_key_format] at h
    exact hr (staticKey_inj _ _ (Except.ok.inj h))

lemma add_storage_eq (bs : BlockStructureBlockData) (st : SysState)
    (h : st.storage_backing_enabled = true) :
    BlockStructureCache.add bs st = .exn .assertionError
      { st with store := models.objectsUpdateOrCreate (BlockStructureCache.objectRender bs) st.store } := by
  simp [BlockStructureCache.add, BlockStructureCache._create_or_update_model,
    models.BlockStructure.update_or_create_with_data,
    BlockStructureCache._add_to_cache, BlockStructureCache._encode_root_cache_key, h]

lemma add_non_storage_eq (bs : BlockStructureBlockData) (st : SysState)
    (h : st.storage_backing_enabled = false) :
    BlockStructureCache.add bs st = .ok ()
      { st with cache := cacheSet ( "v" ++ toString BlockStructureBlockData.VERSION ++ ".root.key." ++ bs.root_block_usage_key) (BlockStructureCache._serialize bs) 86400 st.cache } := by
  simp [BlockStructureCache.add, BlockStructureCache._create_or_update_model,
    BlockStructureCache._add_to_cache, BlockStructureCache._encode_root_cache_key, h]

lemma mem_objectsUpdateOrCreate (v : String) (rows : List models.BlockStructure)
    (r : models.BlockStructure) (hr : r ∈ models.objectsUpdateOrCreate v rows) :
    r ∈ rows ∨ r.dataFile = none := by
  unfold models.objectsUpdateOrCreate at hr
  split at hr
  · exact Or.inl hr
  · rcases List.mem_append.mp hr with h | h
    · exact Or.inl h
    · right
      simp only [List.mem_singleton] at h
      rw [h]

/-- C1 (code bug): with storage backing disabled, add succeeds, but the
subsequent get does not return the cached structure: the first statement
of get calls the undefined method _get_current_model, so get raises
AttributeError instead. -/
theorem add_then_get_attribute_error (bs : BlockStructureBlockData) (st : SysState)
    (h : st.storage_backing_enabled = false) :
    (BlockStructureCache.add bs st).isOk = true ∧
    BlockStructureCache.get bs.root_block_usage_key (BlockStructureCache.add bs st).state =
      .exn (.attributeError "_get_current_model") (BlockStructureCache.add bs st).state := by
  rw [add_non_storage_eq bs st h]
  exact ⟨rfl, rfl⟩

theorem add_then_get_attribute_error_witness :
    (BlockStructureCache.add ⟨ "R1", [], [], []⟩ ⟨false, [], []⟩).isOk = true ∧
    BlockStructureCache.get "R1"
        (BlockStructureCache.add ⟨ "R1", [], [], []⟩ ⟨false, [], []⟩).state =
      .exn (.attributeError "_get_current_model")
        (BlockStructureCache.add ⟨ "R1", [], [], []⟩ ⟨false, [], []⟩).state :=
  add_then_get_attribute_error ⟨ "R1", [], [], []⟩ ⟨false, [], []⟩ rfl

/-- C2 (code bug): with storage backing enabled, add never succeeds: the
model upsert returns None (update_or_create_with_data has no return
statement), so the assertion in _encode_root_cache_key fails and add
raises AssertionError before any fast-tier write. -/
theorem add_storage_assertion_fails (bs : BlockStructureBlockData) (st : SysState)
    (h : st.storage_backing_enabled = true) :
    BlockStructureCache.add bs st = .exn .assertionError
      { st with store := models.objectsUpdateOrCreate (BlockStructureCache.objectRender bs) st.store } :=
  add_storage_eq bs st h

theorem add_storage_assertion_fails_witness :
    BlockStructureCache.add ⟨ "R1", [], [], []⟩ ⟨true, [], []⟩ = .exn .assertionError
      ⟨true, [], models.objectsUpdateOrCreate
        (BlockStructureCache.objectRender ⟨ "R1", [], [], []⟩) []⟩ :=
  add_storage_assertion_fails ⟨ "R1", [], [], []⟩ ⟨true, [], []⟩ rfl

/-- C3 (code bug): in storage-backed mode add fails before writing the
fast tier (the cache is unchanged) and never persists the serialized
blob (every store row after add either existed before or has an unset
data file), so no later get can be served from a durable blob written by
add. -/
theorem storage_add_never_persists_blob (bs : BlockStructureBlockData)
    (st : SysState) (h : st.storage_backing_enabled = true) :
    (BlockStructureCache.add bs st).isOk = false ∧
    (BlockStructureCache.add bs st).state.cache = st.cache ∧
    ((BlockStructureCache.add bs st).state.store.all
      (fun r => decide (r ∈ st.store) || decide (r.dataFile = none))) = true := by
  rw [add_storage_eq bs st h]
  refine ⟨rfl, rfl, ?_⟩
  refine List.all_eq_true.mpr ?_
  intro r hr
  rcases mem_objectsUpdateOrCreate _ _ _ hr with hm | hm <;> simp [hm]

theorem storage_add_never_persists_blob_witness :
    (BlockStructureCache.add ⟨ "R1", [], [], []⟩ ⟨true, [], []⟩).isOk = false ∧
    (BlockStructureCache.add ⟨ "R1", [], [], []⟩ ⟨true, [], []⟩).state.cache = [] ∧
    ((BlockStructureCache.add ⟨ "R1", [], [], []⟩ ⟨true, [], []⟩).state.store.all
      (fun r => decide (r ∈ ([] : List models.BlockStructure)) ||
        decide (r.dataFile = none))) = true :=
  storage_add_never_persists_blob ⟨ "R1", [], [], []⟩ ⟨true, [], []⟩ rfl

/-- C4 (code bug): delete removes nothing: it calls
_encode_root_cache_key with only the root key, while that classmethod
requires the bs_model argument, so every delete raises TypeError and
leaves the fast tier and the durable store untouched. -/
theorem delete_raises_type_error (root : String) (st : SysState) :
    BlockStructureCache.delete root st =
      .exn (.typeError BlockStructureCache.deleteTypeErrorMessage) st ∧
    (BlockStructureCache.delete root st).state.cache = st.cache ∧
    (BlockStructureCache.delete root st).state.store = st.store :=
  ⟨rfl, rfl, rfl⟩

/-- C8 (code bug): get on any root identifier, in particular one never
added and with no durable record, raises AttributeError at its first
statement (the undefined _get_current_model), not BlockStructureNotFound,
and not a decode error either. -/
theorem get_raises_attribute_error (root : String) (st : SysState) :
    BlockStructureCache.get root st =
      .exn (.attributeError "_get_current_model") st ∧
    BlockStructureCache.get root st ≠ .exn (.blockStructureNotFound root) st ∧
    BlockStructureCache.get root st ≠ .exn .corruptPayload st := by
  refine ⟨rfl, ?_, ?_⟩ <;> simp [BlockStructureCache.get]

/-- C9 (code bug): the fast-tier probe _get_from_cache does treat any
falsy cached value (a miss or empty bytes) as BlockStructureNotFound
without attempting to decode it, but get itself never reaches that code:
it raises AttributeError before probing the fast tier. -/
theorem falsy_payload_handling (root k : String)
    (bs_model : Option models.BlockStructure) (st : SysState)
    (hk : BlockStructureCache._encode_root_cache_key st.storage_backing_enabled
      root bs_model = .ok k)
    (hfalsy : cacheGet k st.cache = none ∨ cacheGet k st.cache = some []) :
    BlockStructureCache._get_from_cache root bs_model st =
      .exn (.blockStructureNotFound root) st ∧
    BlockStructureCache.get root st =
      .exn (.attributeError "_get_current_model") st := by
  constructor
  · rcases hfalsy with hf | hf <;>
      simp [BlockStructureCache._get_from_cache, hk, hf]
  · rfl

theorem falsy_payload_handling_witness :
    BlockStructureCache._get_from_cache "R1" none
        ⟨false, [⟨ "v2.root.key.R1", [], 86400⟩], []⟩ =
      .exn (.blockStructureNotFound "R1")
        ⟨false, [⟨ "v2.root.key.R1", [], 86400⟩], []⟩ ∧
    BlockStructureCache.get "R1" ⟨false, [⟨ "v2.root.key.R1", [], 86400⟩], []⟩ =
      .exn (.attributeError "_get_current_model")
        ⟨false, [⟨ "v2.root.key.R1", [], 86400⟩], []⟩ :=
  falsy_payload_handling "R1" "v2.root.key.R1" none
    ⟨false, [⟨ "v2.root.key.R1", [], 86400⟩], []⟩ rfl (Or.inr rfl)

/-- C10: the overridden model delete method has an empty body, so calling
it leaves all persistent state unchanged: the table rows and every blob
file are exactly as before. -/
theorem model_delete_is_noop (r : models.BlockStructure) (st : SysState) :
    models.BlockStructure.delete r st = st ∧
    (models.BlockStructure.delete r st).store = st.store ∧
    ((models.BlockStructure.delete r st).store.map (fun x => x.dataFile)) =
      st.store.map (fun x => x.dataFile) :=
  ⟨rfl, rfl, rfl⟩

theorem cache_key_version_sensitivity_witness :
    BlockStructureCache._encode_root_cache_key true "root"
        (some ⟨ "u", "v1", "t", "s", "w", none⟩) ≠
      BlockStructureCache._encode_root_cache_key true "root"
        (some ⟨ "u", "v2", "t", "s", "w", none⟩) ∧
    BlockStructureCache._encode_root_cache_key false "r1" none ≠
      BlockStructureCache._encode_root_cache_key false "r2" none :=
  cache_key_version_sensitivity ⟨ "u", "v1", "t", "s", "w", none⟩
    ⟨ "u", "v2", "t", "s", "w", none⟩ "r1" "r2" "root" none
    (Or.inr (Or.inl (by refine ⟨rfl, ?_, rfl, rfl, rfl⟩; decide)))
    (by decide)
